import Mathlib

/-!
Verification of the identifier and catalog management subsystem of the
pyxidust repository (module pyxidust/projects.py), shallowly embedded in
Lean 4. Python strings are modelled as lists of characters; file contents
and dialog messages are threaded explicitly; Python runtime failures
(IndexError, ValueError, TypeError, AttributeError, UnboundLocalError,
SystemExit) are modelled with an error type in an Except result.
The character class predicates follow the Python semantics on the ASCII
range, which is the range the serial subsystem operates on.
-/

namespace Pyxidust

/-- Python strings are modelled as lists of characters. -/
abbrev PyStr := List Char

/-- Converts a Lean string literal into the list of character model. -/
def pystr (s : String) : PyStr := s.toList

/-- Python runtime failure kinds that the embedded code can raise. -/
inductive PyErr
  | indexError
  | valueError
  | typeError
  | attributeError
  | unboundLocal
  | systemExit
deriving DecidableEq

/-- Python str.isalpha on the ASCII range. -/
def pyIsAlpha (c : Char) : Bool :=
  (65 ≤ c.toNat && c.toNat ≤ 90) || (97 ≤ c.toNat && c.toNat ≤ 122)

/-- Python str.isspace on the ASCII range (space, tab, newline, carriage
return, vertical tab, form feed). -/
def pyIsSpace (c : Char) : Bool :=
  (9 ≤ c.toNat && c.toNat ≤ 13) || c.toNat = 32

/-- Python str.isdigit on the ASCII range. -/
def pyIsDigit (c : Char) : Bool :=
  48 ≤ c.toNat && c.toNat ≤ 57

/-- Python str.isnumeric on the ASCII range coincides with isdigit. -/
def pyIsNumeric (c : Char) : Bool := pyIsDigit c

/-- The Python string.punctuation constant, listed character by character
(codes 39 and 96 are the apostrophe and the backtick). -/
def PUNCT : PyStr :=
  pystr "!\"#$%&" ++ [Char.ofNat 39] ++ pystr "()*+,-./:;<=>?@[\\]^_"
    ++ [Char.ofNat 96] ++ pystr "\x7b|\x7d~"

/-- A character that any of the three checks of the serial validator
rejects: a letter, a whitespace character, or punctuation. -/
def badChar (c : Char) : Bool :=
  pyIsAlpha c || pyIsSpace c || PUNCT.contains c

/-- Decimal digit accumulator used by the int() model. -/
def digitsToNat (ds : PyStr) : Nat :=
  ds.foldl (fun a c => 10 * a + (c.toNat - 48)) 0

/-- Python int(str) on decimal form: optional surrounding whitespace,
optional sign, then at least one digit; anything else raises ValueError
(modelled as none). -/
def pyInt? (s : PyStr) : Option Int :=
  let t := ((s.dropWhile pyIsSpace).reverse.dropWhile pyIsSpace).reverse
  match t with
  | '-' :: ds =>
      if ds ≠ [] ∧ ds.all pyIsDigit then some (-(digitsToNat ds : Int)) else none
  | '+' :: ds =>
      if ds ≠ [] ∧ ds.all pyIsDigit then some (digitsToNat ds : Int) else none
  | ds =>
      if ds ≠ [] ∧ ds.all pyIsDigit then some (digitsToNat ds : Int) else none

/-- Decimal rendering of a natural number, as Python str() produces it. -/
def natChars (n : Nat) : PyStr := (Nat.repr n).toList

/-- Decimal rendering of an integer, as Python str() produces it. -/
def intChars (i : Int) : PyStr :=
  if i < 0 then '-' :: natChars i.natAbs else natChars i.natAbs

/-- Python str.zfill: pad with zeros on the left up to the given width,
keeping a leading sign in front of the padding. -/
def zfill (w : Nat) (s : PyStr) : PyStr :=
  match s with
  | [] => List.replicate w '0'
  | c :: cs =>
      if c = '-' ∨ c = '+' then
        c :: (List.replicate (w - s.length) '0' ++ cs)
      else List.replicate (w - s.length) '0' ++ s

/-- Python str.split with a one character separator: splits at every
occurrence of the separator; the empty string yields one empty part. -/
def pySplit (sep : Char) : PyStr → List PyStr
  | [] => [[]]
  | c :: cs =>
      if c = sep then [] :: pySplit sep cs
      else
        match pySplit sep cs with
        | [] => [[c]]
        | p :: ps => (c :: p) :: ps

/-- Worker for the str.replace model; the fuel argument bounds the number
of scanning steps and starts at the length of the string, which is enough
because every step consumes at least one character. -/
def pyReplaceGo (pat repl : PyStr) : Nat → PyStr → PyStr
  | _, [] => []
  | 0, s => s
  | fuel + 1, c :: cs =>
      if pat ≠ [] ∧ pat.isPrefixOf (c :: cs) then
        repl ++ pyReplaceGo pat repl fuel (cs.drop (pat.length - 1))
      else c :: pyReplaceGo pat repl fuel cs

/-- Python str.replace: replaces every non-overlapping occurrence of a
non-empty pattern, scanning left to right. -/
def pyReplace (pat repl s : PyStr) : PyStr := pyReplaceGo pat repl s.length s

/-!
get_serial (pyxidust/projects.py lines 331-342): reads the counter file,
parses it with int(), prepends the current year to the incremented value,
writes that same string back to the file and returns it. The model takes
the year and the current file content and yields the returned serial
together with the new file content.
-/

/-- Model of get_serial: source lines 331-342 of pyxidust/projects.py. -/
def get_serial (year : Nat) (file : PyStr) : Except PyErr (PyStr × PyStr) :=
  match pyInt? file with
  | none => .error .valueError
  | some n =>
      let serial := natChars year ++ intChars (n + 1)
      .ok (serial, serial)

/-!
validate_serial (pyxidust/projects.py lines 664-714): shows a dialog for
each violated check via message_window and then returns; it never raises
and never terminates the process. Its observable effect is therefore the
list of dialog messages shown, which this model computes.
-/

/-- Dialog text shown when a segment contains a letter. -/
def msgLetters : PyStr := pystr "Serial number must not contain letters"

/-- Dialog text shown when a segment contains a space. -/
def msgSpaces : PyStr := pystr "Serial number cannot have spaces"

/-- Dialog text shown when a segment contains punctuation. -/
def msgSpecial : PyStr := pystr "Serial number cannot have special characters"

/-- Dialog text shown when the overall shape is wrong. -/
def msgFormat : PyStr := pystr "Serial # format is 00000000 or 00000000-0000"

/-- Model of the nested helper _check_numeric of validate_serial: the
dialog messages it shows for one segment (at most one, first check that
fires wins). -/
def check_numeric_msgs (value : PyStr) : List PyStr :=
  if value.any pyIsAlpha then [msgLetters]
  else if value.any pyIsSpace then [msgSpaces]
  else if value.any (fun c => PUNCT.contains c) then [msgSpecial]
  else []

/-- Model of validate_serial, source lines 664-714: the dialog messages
shown for the given string. Length 8 checks the whole string; length 13
with exactly one dash sitting at index 8 checks both dash-separated
segments; every other shape shows the format error. -/
def validate_serial_msgs (string : PyStr) : List PyStr :=
  if string.length = 8 then check_numeric_msgs string
  else if string.length = 13 ∧ string.count '-' = 1 ∧ string[8]? = some '-' then
    let parts := pySplit '-' string
    check_numeric_msgs (parts.getD 0 []) ++ check_numeric_msgs (parts.getD 1 [])
  else [msgFormat]

/-!
new_serial (pyxidust/projects.py lines 549-593). The model takes the
optional user serial, the current year and the counter file content, and
yields either the Python error raised or the returned serial together
with the final counter file content and the dialog messages shown by
validate_serial along the way. A serial whose length is neither 8 nor 13
leaves the local variable serial_new unassigned, so the final return
statement raises UnboundLocalError; a length-13 serial whose dash count
is not 1 makes the two-target unpacking of split raise ValueError; a
non-numeric suffix makes int() raise ValueError.
-/

/-- Model of new_serial, source lines 549-593 of pyxidust/projects.py. -/
def new_serial (serial : Option PyStr) (year : Nat) (file : PyStr) :
    Except PyErr (PyStr × PyStr × List PyStr) :=
  match serial with
  | none =>
      match get_serial year file with
      | .error e => .error e
      | .ok (s, f) => .ok (s ++ pystr "-0001", f, [])
  | some s =>
      let msgs := validate_serial_msgs s
      if s.length = 8 then .ok (s ++ pystr "-0001", file, msgs)
      else if s.length = 13 then
        match pySplit '-' s with
        | [base, suffix] =>
            match pyInt? suffix with
            | none => .error .valueError
            | some n =>
                let suffix_int := n + 1
                let suffix_new := zfill 4 (intChars suffix_int)
                if suffix_int > 9999 then
                  match get_serial year file with
                  | .error e => .error e
                  | .ok (g, f) => .ok (g ++ pystr "-0001", f, msgs)
                else .ok (base ++ '-' :: suffix_new, file, msgs)
        | _ => .error .valueError
      else .error .unboundLocal

/-!
validate_project (pyxidust/projects.py lines 631-660) and the SIZES
constant from pyxidust/config.py lines 51-52. The chain of elif branches
assigns the local variable error only when some check fails; the final
test reads that variable, so a fully valid input raises
UnboundLocalError, while an invalid input shows two dialogs and calls
sys.exit (modelled as SystemExit). The model yields the dialog messages
shown together with the raised failure.
-/

/-- The SIZES set of template names from pyxidust/config.py. -/
def SIZES : List PyStr :=
  [pystr "P_08x11", pystr "P_11x17", pystr "P_18x24", pystr "P_24x36",
   pystr "P_36x48", pystr "L_08x11", pystr "L_11x17", pystr "L_18x24",
   pystr "L_24x36", pystr "L_36x48"]

/-- The second dialog text of validate_project, a quoted sentence
(code 39 is the apostrophe). -/
def RESTART : PyStr :=
  [Char.ofNat 39] ++ pystr "Check user input arguments and try again"
    ++ [Char.ofNat 39]

/-- Model of validate_project, source lines 631-660: the dialogs shown
and the failure that ends it. No branch of the source returns normally:
an assigned error leads to two dialogs and sys.exit, an unassigned error
makes the final read of the variable raise UnboundLocalError. -/
def validate_project (description name template : PyStr) :
    List PyStr × PyErr :=
  let error? : Option PyStr :=
    if description.any pyIsNumeric then
      some (pystr "Description does not accept numbers.")
    else if description.any (fun c => PUNCT.contains c) then
      some (pystr "Description does not accept special characters.")
    else if 50 < description.length then
      some (pystr "Description must be 50 characters or less.")
    else if name.any pyIsSpace then
      some (pystr "Name does not accept spaces.")
    else if name.any (fun c => PUNCT.contains c) then
      some (pystr "Name does not accept special characters.")
    else if 15 < name.length then
      some (pystr "Name must be 15 characters or less.")
    else if ¬ template ∈ SIZES then
      some (pystr "Invalid template size for " ++ template)
    else none
  match error? with
  | some e => ([e, RESTART], .systemExit)
  | none => ([], .unboundLocal)

/-!
log_project (pyxidust/projects.py lines 407-424). The creator (from
getpass.getuser) and the timestamp (from time.strftime) are environment
inputs and appear as parameters; the catalog file content is threaded
explicitly. The function derives the three names, appends one entry to
the catalog and returns the names.
-/

/-- Model of log_project, source lines 407-424: takes the catalog file
content and yields the returned triple (folder_name, map_name,
map_serial) together with the new catalog content. -/
def log_project (description name serial creator stamp catalog : PyStr) :
    (PyStr × PyStr × PyStr) × PyStr :=
  let map_serial := serial ++ pystr "-0001"
  let folder_name := serial ++ pystr "_" ++ name
  let map_name := map_serial ++ pystr "_" ++ name ++ pystr ".aprx"
  let entry := pystr "\n" ++ serial ++ pystr "," ++ name ++ pystr ","
    ++ description ++ pystr "," ++ creator ++ pystr "," ++ stamp
  ((folder_name, map_name, map_serial), catalog ++ entry)

/-!
add_map (pyxidust/projects.py lines 6-85). The directory listing, the
year and the counter file content are inputs; the external application
effects (shutil.copy, arcpy project edits) are observable here as the
list of destination paths created, in creation order. The source pops
the last element of the filtered directory listing (IndexError when
empty), strips the extension with str.replace, unpacks the stem on the
underscore (ValueError unless exactly two parts), then repeatedly calls
new_serial and copies to destination paths. In clone mode a missing
filename raises AttributeError at the unpacking of filename; inside the
per-iteration helper, os.path.join(directory, filename) raises TypeError
when filename is None, which is always the case in scratch mode, before
any file is created in that iteration. The raw f-string of the source
puts two literal backslash characters between directory and file name.
-/

/-- The two add_map modes. -/
inductive AMOption
  | clone
  | scratch
deriving DecidableEq

/-- Outcome of an add_map run: destination paths created in order, final
counter file content, dialog messages shown, and the Python error that
ended the run, if any. -/
structure AddMapResult where
  created : List PyStr
  file : PyStr
  messages : List PyStr
  error : Option PyErr
deriving DecidableEq

/-- The per-iteration loop of add_map (source lines 57-85): runs the
_create_project helper and advances the serial, quantity times. Yields
the destinations created from this iteration on, in creation order,
together with the final counter file content, the dialogs shown from
this iteration on and the failure that stopped the loop, if any. -/
def add_map_loop (directory : PyStr) (filename : Option PyStr)
    (title : PyStr) (year : Nat) :
    Nat → PyStr → PyStr → AddMapResult
  | 0, _serial, file => ⟨[], file, [], none⟩
  | q + 1, serial, file =>
      match filename with
      | none => ⟨[], file, [], some .typeError⟩
      | some _fn =>
          let destination := directory ++ pystr "\\\\" ++ serial
            ++ pystr "_" ++ title ++ pystr ".aprx"
          match new_serial (some serial) year file with
          | .error e => ⟨[destination], file, [], some e⟩
          | .ok (s2, file2, msgs2) =>
              let rest := add_map_loop directory filename title year q s2 file2
              ⟨destination :: rest.created, rest.file, msgs2 ++ rest.messages,
                rest.error⟩

/-- Model of add_map, source lines 6-85 of pyxidust/projects.py. -/
def add_map (directory : PyStr) (listing : List PyStr) (opt : AMOption)
    (quantity : Nat) (filename : Option PyStr) (_template : Option PyStr)
    (year : Nat) (file0 : PyStr) : AddMapResult :=
  let aprxs := listing.filter (fun i => (pystr ".aprx").isSuffixOf i)
  match aprxs.getLast? with
  | none => ⟨[], file0, [], some .indexError⟩
  | some aprx =>
      match pySplit '_' (pyReplace (pystr ".aprx") [] aprx) with
      | [serial_base, title0] =>
          let titleE : Except PyErr PyStr :=
            match opt, filename with
            | .clone, none => .error .attributeError
            | .clone, some fn =>
                match pySplit '_' (pyReplace (pystr ".aprx") [] fn) with
                | [_key, t] => .ok t
                | _ => .error .valueError
            | .scratch, _ => .ok title0
          match titleE with
          | .error e => ⟨[], file0, [], some e⟩
          | .ok title =>
              match new_serial (some serial_base) year file0 with
              | .error e => ⟨[], file0, [], some e⟩
              | .ok (serial0, file1, msgs0) =>
                  let rest := add_map_loop directory filename title year
                    quantity serial0 file1
                  ⟨rest.created, rest.file, msgs0 ++ rest.messages, rest.error⟩
      | _ => ⟨[], file0, [], some .valueError⟩

/-!
get_metadata (pyxidust/projects.py lines 287-327). The recursive
directory walk is an input: the flat list of discovered files in walk
order, each with its containing folder, base name and a pre-rendered
modification timestamp (the datetime formatting is kept as plain text).
The catalog file on disk is threaded as an optional content (none when
the file does not exist). The to_csv write sits inside the body of the
per-matching-file branch, so it runs once per matching file, each time
overwriting the catalog with the rows accumulated so far.
-/

/-- One file met during the os.walk traversal. -/
structure FsEntry where
  root : PyStr
  base : PyStr
  mtime : PyStr
deriving DecidableEq

/-- Rendering of the pandas DataFrame produced by get_metadata as csv
text: header line, then one line per row with the 1-based ID index. -/
def catalogCsv (rows : List (PyStr × PyStr × PyStr)) : PyStr :=
  pystr "ID,FILE_NAME,FILE_PATH,LAST_MODIFIED\n" ++
    (List.enumFrom 1 rows).flatMap (fun r =>
      natChars r.1 ++ pystr "," ++ r.2.1 ++ pystr "," ++ r.2.2.1
        ++ pystr "," ++ r.2.2.2 ++ pystr "\n")

/-- The walk loop of get_metadata: accumulates (name, path, time) rows
over the walked files and overwrites the catalog on every match. -/
def get_metadata_go (extension : PyStr) :
    List FsEntry → List (PyStr × PyStr × PyStr) → Option PyStr → Option PyStr
  | [], _, cat => cat
  | e :: es, rows, cat =>
      if extension.isSuffixOf e.base then
        let location := e.root ++ pystr "\\" ++ e.base
        let rows2 := rows ++ [(e.base, location, e.mtime)]
        get_metadata_go extension es rows2 (some (catalogCsv rows2))
      else get_metadata_go extension es rows cat

/-- Model of get_metadata, source lines 287-327: final content of the
Catalog.csv file given its prior content. -/
def get_metadata (extension : PyStr) (walk : List FsEntry)
    (catalog0 : Option PyStr) : Option PyStr :=
  get_metadata_go extension walk [] catalog0

/-!
create_index (pyxidust/projects.py lines 178-252). The external
application objects are inputs: one project model per row of the crawled
catalog, holding its map names, the layer names of each map and its
layout names. The source builds three attribute tables keyed by the
1-based position of the project (enumerate with start=1), writes them as
pipe-separated files, reads them back together with the crawled catalog,
and merges each attribute table with the catalog metadata via
pandas.merge with how=left and the ID as key, the attribute table being
the left operand. The csv round trip is abstracted away: tables appear
as lists of key-value rows in file order.
-/

/-- A map of a project together with the names of its layers. -/
structure ProjMap where
  name : PyStr
  layers : List PyStr
deriving DecidableEq

/-- The parts of one external project that create_index reads. -/
structure ProjModel where
  maps : List ProjMap
  layouts : List PyStr
deriving DecidableEq

/-- One row of the crawled Catalog.csv metadata. -/
structure MetaRow where
  fileName : PyStr
  filePath : PyStr
  lastModified : PyStr
deriving DecidableEq

/-- The map-name attribute rows of create_index, keyed by the 1-based
project position. -/
def attrMaps (projects : List ProjModel) : List (Nat × PyStr) :=
  (List.enumFrom 1 projects).flatMap (fun p => p.2.maps.map (fun m => (p.1, m.name)))

/-- The layer-name attribute rows of create_index. -/
def attrLayers (projects : List ProjModel) : List (Nat × PyStr) :=
  (List.enumFrom 1 projects).flatMap (fun p =>
    p.2.maps.flatMap (fun m => m.layers.map (fun l => (p.1, l))))

/-- The layout-name attribute rows of create_index. -/
def attrLayouts (projects : List ProjModel) : List (Nat × PyStr) :=
  (List.enumFrom 1 projects).flatMap (fun p => p.2.layouts.map (fun l => (p.1, l)))

/-- pandas.merge with how=left on the key column: every left row in
order, paired with each matching right row in right order, or with none
when the right side has no matching key. -/
def pdMergeLeft {α β : Type} (left : List (Nat × α)) (right : List (Nat × β)) :
    List (Nat × α × Option β) :=
  left.flatMap (fun la =>
    if (right.filter (fun r => r.1 = la.1)).isEmpty then [(la.1, la.2, none)]
    else (right.filter (fun r => r.1 = la.1)).map (fun r => (la.1, la.2, some r.2)))

/-- Model of the merge stage of create_index, source lines 228-252: the
three joined tables (layers, layouts, maps), each produced by a left
join of the attribute table with the crawled metadata on the ID key. -/
def create_index_merges (projects : List ProjModel)
    (info : List (Nat × MetaRow)) :
    List (Nat × PyStr × Option MetaRow) × List (Nat × PyStr × Option MetaRow)
      × List (Nat × PyStr × Option MetaRow) :=
  (pdMergeLeft (attrLayers projects) info,
   pdMergeLeft (attrLayouts projects) info,
   pdMergeLeft (attrMaps projects) info)

/-!
Helper lemmas about the string primitives.
-/

/-- No character of the punctuation constant is a digit. -/
lemma punct_chars_not_digit : ∀ c ∈ PUNCT, pyIsDigit c = false := by decide

/-- A digit is not a letter. -/
lemma digit_not_alpha {c : Char} (h : pyIsDigit c = true) : pyIsAlpha c = false := by
  have hv : 48 ≤ c.toNat ∧ c.toNat ≤ 57 := by
    simpa [pyIsDigit] using h
  simp only [pyIsAlpha, Bool.or_eq_false_iff, Bool.and_eq_false_iff,
    decide_eq_false_iff_not, not_le]
  omega

/-- A digit is not a whitespace character. -/
lemma digit_not_space {c : Char} (h : pyIsDigit c = true) : pyIsSpace c = false := by
  have hv : 48 ≤ c.toNat ∧ c.toNat ≤ 57 := by
    simpa [pyIsDigit] using h
  simp only [pyIsSpace, Bool.or_eq_false_iff, Bool.and_eq_false_iff,
    decide_eq_false_iff_not, not_le]
  omega

/-- A digit is not a punctuation character. -/
lemma digit_not_mem_punct {c : Char} (h : pyIsDigit c = true) : c ∉ PUNCT := by
  intro hmem
  have := punct_chars_not_digit c hmem
  rw [h] at this
  cases this

/-- A digit is not a letter, not whitespace and not punctuation. -/
lemma digit_not_badChar {c : Char} (h : pyIsDigit c = true) : badChar c = false := by
  simp [badChar, digit_not_alpha h, digit_not_space h, digit_not_mem_punct h]

/-- A digit is not the dash character. -/
lemma digit_ne_dash {c : Char} (h : pyIsDigit c = true) : c ≠ '-' := by
  intro he
  subst he
  simp [pyIsDigit] at h

/-- The segment check passes on a string of digits. -/
lemma check_numeric_msgs_digits {v : PyStr} (h : v.all pyIsDigit = true) :
    check_numeric_msgs v = [] := by
  have hall : ∀ c ∈ v, pyIsDigit c = true := List.all_eq_true.mp h
  have h1 : v.any pyIsAlpha = false := by
    rw [List.any_eq_false]
    intro c hc
    simp [digit_not_alpha (hall c hc)]
  have h2 : v.any pyIsSpace = false := by
    rw [List.any_eq_false]
    intro c hc
    simp [digit_not_space (hall c hc)]
  have h3 : v.any (fun c => PUNCT.contains c) = false := by
    rw [List.any_eq_false]
    intro c hc
    simp [digit_not_mem_punct (hall c hc)]
  simp only [check_numeric_msgs, h1, h2, h3, Bool.false_eq_true, if_false]

/-- The any combinator distributes over the three checks of badChar. -/
lemma any_badChar_split (v : PyStr) :
    v.any badChar
      = (v.any pyIsAlpha || v.any pyIsSpace || v.any (fun c => PUNCT.contains c)) := by
  induction v with
  | nil => rfl
  | cons c cs ih =>
      simp only [List.any_cons, ih, badChar]
      cases hA : pyIsAlpha c <;> cases hS : pyIsSpace c <;>
        cases hC : PUNCT.contains c <;> cases hA2 : cs.any pyIsAlpha <;>
          cases hS2 : cs.any pyIsSpace <;>
            cases hC2 : cs.any (fun c => PUNCT.contains c) <;> rfl

/-- The segment check fires exactly when the segment holds a letter, a
whitespace character or punctuation. -/
lemma check_numeric_msgs_ne_nil_iff (v : PyStr) :
    check_numeric_msgs v ≠ [] ↔ ∃ c ∈ v, badChar c = true := by
  have hne : check_numeric_msgs v ≠ []
      ↔ (v.any pyIsAlpha || v.any pyIsSpace
          || v.any (fun c => PUNCT.contains c)) = true := by
    unfold check_numeric_msgs
    by_cases h1 : v.any pyIsAlpha = true <;> by_cases h2 : v.any pyIsSpace = true <;>
      by_cases h3 : v.any (fun c => PUNCT.contains c) = true <;>
        simp [h1, h2, h3]
  rw [hne, ← any_badChar_split]
  exact List.any_eq_true

/-- Unfolding equation of the split model on a cons cell. -/
lemma pySplit_cons (sep c : Char) (cs : PyStr) :
    pySplit sep (c :: cs)
      = if c = sep then [] :: pySplit sep cs
        else match pySplit sep cs with
          | [] => [[c]]
          | p :: ps => (c :: p) :: ps := rfl

/-- The split model never yields an empty part list. -/
lemma pySplit_ne_nil (sep : Char) (l : PyStr) : pySplit sep l ≠ [] := by
  cases l with
  | nil => simp [pySplit]
  | cons c cs =>
      unfold pySplit
      by_cases h : c = sep
      · simp [h]
      · simp only [h, if_false]
        cases pySplit sep cs with
        | nil => simp
        | cons p ps => simp

/-- Splitting a string that does not contain the separator yields the
whole string as the only part. -/
lemma pySplit_of_not_mem {sep : Char} {l : PyStr} (h : sep ∉ l) :
    pySplit sep l = [l] := by
  induction l with
  | nil => rfl
  | cons c cs ih =>
      have hc : ¬ c = sep := by
        intro he
        exact h (he ▸ List.mem_cons_self c cs)
      have hcs : sep ∉ cs := fun hm => h (List.mem_cons_of_mem c hm)
      unfold pySplit
      simp only [hc, if_false, ih hcs]

/-- Splitting around the first separator occurrence. -/
lemma pySplit_append {sep : Char} {a b : PyStr} (ha : sep ∉ a) :
    pySplit sep (a ++ sep :: b) = a :: pySplit sep b := by
  induction a with
  | nil => simp [pySplit]
  | cons c cs ih =>
      have hc : ¬ c = sep := by
        intro he
        exact ha (he ▸ List.mem_cons_self c cs)
      have hcs : sep ∉ cs := fun hm => ha (List.mem_cons_of_mem c hm)
      rw [List.cons_append, pySplit_cons, if_neg hc, ih hcs]

/-- A string with exactly one separator splits into its two sides. -/
lemma pySplit_pair {sep : Char} {a b : PyStr} (ha : sep ∉ a) (hb : sep ∉ b) :
    pySplit sep (a ++ sep :: b) = [a, b] := by
  rw [pySplit_append ha, pySplit_of_not_mem hb]

/-- A list decomposes around any index that holds a value. -/
lemma eq_take_cons_drop {α : Type} :
    ∀ (n : Nat) (l : List α) (c : α), l[n]? = some c →
      l = l.take n ++ c :: l.drop (n + 1) := by
  intro n
  induction n with
  | zero =>
      intro l c h
      cases l with
      | nil => simp at h
      | cons x xs =>
          simp only [List.getElem?_cons_zero, Option.some.injEq] at h
          simp [h]
  | succ m ih =>
      intro l c h
      cases l with
      | nil => simp at h
      | cons x xs =>
          simp only [List.getElem?_cons_succ] at h
          have := ih xs c h
          simp only [List.take_succ_cons, List.drop_succ_cons, List.cons_append,
            List.cons.injEq]
          exact ⟨trivial, this⟩

/-- Unfolding equation for new_serial on a present serial argument. -/
lemma new_serial_some (s : PyStr) (year : Nat) (file : PyStr) :
    new_serial (some s) year file =
      (if s.length = 8 then .ok (s ++ pystr "-0001", file, validate_serial_msgs s)
       else if s.length = 13 then
        match pySplit '-' s with
        | [base, suffix] =>
            match pyInt? suffix with
            | none => .error .valueError
            | some n =>
                if n + 1 > 9999 then
                  match get_serial year file with
                  | .error e => .error e
                  | .ok (g, f) => .ok (g ++ pystr "-0001", f, validate_serial_msgs s)
                else .ok (base ++ '-' :: zfill 4 (intChars (n + 1)), file,
                  validate_serial_msgs s)
        | _ => .error .valueError
       else .error .unboundLocal) := rfl

/-!
Claim C1. The spec asserts that with the counter file holding 100 and
the year 2025, get_serial returns "2025101" and afterwards the counter
file holds the bare incremented integer "101". The source writes the
returned year-prefixed serial back instead (file.write(serial) at line
340 writes the very string built at line 338), so the file ends up
holding "2025101": the next call would then return "20252025102",
breaking the documented 8-character YYYYRRRR serial format. The returned
value agrees with the claim; the stored value does not.
-/

/-- Claim C1: at counter file "100" and year 2025, get_serial returns
"2025101" as the claim states, but the file afterwards holds the full
year-prefixed serial "2025101", not the bare integer "101" the claim
describes. -/
theorem get_serial_stores_prefixed_value :
    get_serial 2025 (pystr "100") = .ok (pystr "2025101", pystr "2025101") ∧
      pystr "2025101" ≠ pystr "101" :=
  ⟨rfl, by decide⟩

/-!
Claim C2. The suffix rollover path of new_serial mints the replacement
base from get_serial, which builds it from the persisted counter and the
current year with no comparison against the incoming base. The new base
therefore coincides with the old one whenever the counter happens to
regenerate it, refuting the universally quantified "different from B".
-/

/-- Claim C2 counterexample: for the valid composite "20251234-9999",
with the counter file holding "1233" and year 2025, new_serial returns
"20251234-0001", whose 8-character base equals the original base B, so
the minted base is not different from B. -/
theorem new_serial_rollover_can_reuse_base :
    new_serial (some (pystr "20251234-9999")) 2025 (pystr "1233")
      = .ok (pystr "20251234-0001", pystr "20251234", []) ∧
    (pystr "20251234-0001").take 8 = pystr "20251234" :=
  ⟨rfl, by decide⟩

/-- Claim C2 (amended): for every valid composite with 8-digit base B and
suffix 9999, new_serial returns a composite whose base is minted from the
persisted counter as the year followed by the incremented counter value
(with no guarantee that it differs from B) and whose suffix is "0001";
the minted base is also written back to the counter file. -/
theorem new_serial_rollover_mints_from_counter
    (base file : PyStr) (year : Nat) (k : Int)
    (hlen : base.length = 8) (hdig : base.all pyIsDigit = true)
    (hfile : pyInt? file = some k) :
    new_serial (some (base ++ pystr "-9999")) year file =
      .ok (natChars year ++ intChars (k + 1) ++ pystr "-0001",
        natChars year ++ intChars (k + 1), []) := by
  have hnd : '-' ∉ base := by
    intro hm
    exact digit_ne_dash (List.all_eq_true.mp hdig _ hm) rfl
  have h9 : ('-' : Char) ∉ pystr "9999" := by decide
  have hsplit : pySplit '-' (base ++ pystr "-9999") = [base, pystr "9999"] := by
    rw [show (pystr "-9999") = '-' :: pystr "9999" from rfl]
    exact pySplit_pair hnd h9
  have hlen13 : (base ++ pystr "-9999").length = 13 := by
    rw [List.length_append, hlen]
    rfl
  have hlen8 : ¬ (base ++ pystr "-9999").length = 8 := by
    rw [hlen13]
    omega
  have hcount : (base ++ pystr "-9999").count '-' = 1 := by
    rw [List.count_append, List.count_eq_zero.mpr hnd]
    rfl
  have hget : (base ++ pystr "-9999")[8]? = some '-' := by
    rw [List.getElem?_append_right (by omega), hlen]
    rfl
  have hmsgs : validate_serial_msgs (base ++ pystr "-9999") = [] := by
    unfold validate_serial_msgs
    rw [if_neg hlen8, if_pos ⟨hlen13, hcount, hget⟩]
    simp only [hsplit, List.getD_cons_zero, List.getD_cons_succ,
      check_numeric_msgs_digits hdig,
      check_numeric_msgs_digits (by decide : (pystr "9999").all pyIsDigit = true),
      List.append_nil]
  rw [new_serial_some, if_neg hlen8, if_pos hlen13]
  simp only [hsplit, show pyInt? (pystr "9999") = some 9999 from rfl, hmsgs]
  rw [if_pos (by omega : (9999 : Int) + 1 > 9999)]
  unfold get_serial
  rw [hfile]

/-- Claim C2 amended witness: at base "20250001", counter file "100" and
year 2025, the rollover mints "2025101-0001" from the counter. -/
theorem new_serial_rollover_mints_from_counter_witness :
    new_serial (some (pystr "20250001-9999")) 2025 (pystr "100")
      = .ok (natChars 2025 ++ intChars (100 + 1) ++ pystr "-0001",
        natChars 2025 ++ intChars (100 + 1), []) :=
  new_serial_rollover_mints_from_counter (pystr "20250001") (pystr "100") 2025 100
    (by decide) (by decide) (by decide)

/-!
Claim C3. The validator shows its dialogs through message_window, which
returns after the user dismisses the dialog; unlike validate_project it
never calls sys.exit, so control returns to the caller. new_serial then
keeps going: a malformed 8-character serial is happily minted into
serial-0001, and malformed lengths other than 8 and 13 end in an
UnboundLocalError at the return statement rather than a clean halt.
-/

/-- Claim C3 counterexample: for the malformed serial "abcdefgh" the
validator shows the letters dialog, yet the calling new_serial still
returns normally and mints "abcdefgh-0001", so validation neither
terminates the process nor stops the minting. -/
theorem validate_serial_does_not_halt :
    validate_serial_msgs (pystr "abcdefgh") = [msgLetters] ∧
    new_serial (some (pystr "abcdefgh")) 2025 (pystr "100")
      = .ok (pystr "abcdefgh-0001", pystr "100", [msgLetters]) :=
  ⟨rfl, rfl⟩

/-- Claim C3 (amended): for every malformed serial (one the validator
shows a dialog for), validate_serial reports the error but returns
normally without terminating the process, and the caller proceeds:
new_serial mints serial-0001 from any malformed 8-character serial, and
for malformed lengths other than 8 and 13 it fails with an unbound-local
error instead of a clean halt. -/
theorem validate_serial_reports_and_returns (s file : PyStr) (year : Nat)
    (_hbad : validate_serial_msgs s ≠ []) :
    (s.length = 8 →
      new_serial (some s) year file
        = .ok (s ++ pystr "-0001", file, validate_serial_msgs s))
    ∧ (s.length ≠ 8 → s.length ≠ 13 →
      new_serial (some s) year file = .error .unboundLocal) := by
  constructor
  · intro h8
    rw [new_serial_some, if_pos h8]
  · intro h8 h13
    rw [new_serial_some, if_neg h8, if_neg h13]

/-- Claim C3 amended witness: the malformed serial "abcd4321" is flagged
by the validator, and new_serial still mints "abcd4321-0001" from it. -/
theorem validate_serial_reports_and_returns_witness :
    new_serial (some (pystr "abcd4321")) 2024 (pystr "7")
      = .ok (pystr "abcd4321" ++ pystr "-0001", pystr "7",
        validate_serial_msgs (pystr "abcd4321")) :=
  (validate_serial_reports_and_returns (pystr "abcd4321") (pystr "7") 2024
    (by decide)).1 (by decide)

/-!
Claim C6. The first act of add_map is to pop the last element of the
filtered directory listing; Python list.pop raises IndexError on an
empty list, before any file is copied.
-/

/-- Claim C6: on a directory listing with no .aprx entry, add_map fails
with IndexError at the pop of the filtered listing and creates nothing,
leaving the counter file untouched and showing no dialog. -/
theorem add_map_empty_dir_index_error (directory : PyStr) (listing : List PyStr)
    (opt : AMOption) (quantity : Nat) (filename template : Option PyStr)
    (year : Nat) (file0 : PyStr)
    (h : listing.filter (fun i => (pystr ".aprx").isSuffixOf i) = []) :
    add_map directory listing opt quantity filename template year file0
      = ⟨[], file0, [], some .indexError⟩ := by
  unfold add_map
  rw [h]
  rfl

/-- Claim C6 witness: a listing holding only a text file makes add_map
fail with IndexError. -/
theorem add_map_empty_dir_index_error_witness :
    add_map (pystr "C:") [pystr "notes.txt"] .scratch 5 none
      (some (pystr "L_08x11")) 2025 (pystr "100")
      = ⟨[], pystr "100", [], some .indexError⟩ :=
  add_map_empty_dir_index_error (pystr "C:") [pystr "notes.txt"] .scratch 5 none
    (some (pystr "L_08x11")) 2025 (pystr "100") (by decide)

/-!
Claim C7. log_project derives the three names, builds the catalog entry
as a newline followed by the five comma separated fields (the timestamp
parameter itself renders as MM/DD/YY,HH:MM:SS), and appends it to the
catalog opened in append mode, leaving everything before it unchanged.
-/

/-- Claim C7: log_project returns the derived (folder_name,
artifact_name, full_serial) triple and appends exactly one record, the
newline followed by the comma separated fields serial, name,
description, creator, timestamp; the prior catalog content stays an
unchanged prefix of the new content. -/
theorem log_project_appends_one_record
    (description name serial creator stamp catalog : PyStr) :
    log_project description name serial creator stamp catalog =
      ((serial ++ pystr "_" ++ name,
        serial ++ pystr "-0001" ++ pystr "_" ++ name ++ pystr ".aprx",
        serial ++ pystr "-0001"),
        catalog ++ pystr "\n"
          ++ List.intercalate (pystr ",") [serial, name, description, creator, stamp])
    ∧ catalog <+: (log_project description name serial creator stamp catalog).2 := by
  constructor
  · unfold log_project
    simp [List.intercalate, List.intersperse, List.append_assoc]
  · unfold log_project
    exact List.prefix_append _ _

/-!
Claim C9. The branch chain of validate_project assigns its local error
variable only when a check fails; no branch assigns it for valid input,
and the final test reads the variable unconditionally, so a fully valid
triple raises UnboundLocalError and never proceeds past validation.
-/

/-- Claim C9: for every description with no digit, no punctuation and at
most 50 characters, every name with no whitespace, no punctuation and at
most 15 characters, and every template in SIZES, validate_project shows
no dialog and ends in the unbound-local failure at its final read of the
never-assigned error variable, so a fully valid input cannot pass. -/
theorem validate_project_valid_input_unbound_local
    (description name template : PyStr)
    (h1 : description.any pyIsNumeric = false)
    (h2 : description.any (fun c => PUNCT.contains c) = false)
    (h3 : description.length ≤ 50)
    (h4 : name.any pyIsSpace = false)
    (h5 : name.any (fun c => PUNCT.contains c) = false)
    (h6 : name.length ≤ 15)
    (h7 : template ∈ SIZES) :
    validate_project description name template = ([], .unboundLocal) := by
  have hh3 : ¬ 50 < description.length := by omega
  have hh6 : ¬ 15 < name.length := by omega
  unfold validate_project
  rw [if_neg (by rw [h1]; exact Bool.false_ne_true),
    if_neg (by rw [h2]; exact Bool.false_ne_true), if_neg hh3,
    if_neg (by rw [h4]; exact Bool.false_ne_true),
    if_neg (by rw [h5]; exact Bool.false_ne_true), if_neg hh6,
    if_neg (by simp [h7])]

/-- Claim C9 witness: the valid triple of the description "Valid
description", the name "Survey" and the template "L_08x11" ends in the
unbound-local failure. -/
theorem validate_project_valid_input_unbound_local_witness :
    validate_project (pystr "Valid description") (pystr "Survey")
      (pystr "L_08x11") = ([], .unboundLocal) :=
  validate_project_valid_input_unbound_local _ _ _ (by decide) (by decide)
    (by decide) (by decide) (by decide) (by decide) (by decide)

/-!
Claim C10. The to_csv call of get_metadata sits inside the body of the
if branch taken once per file whose name ends with the extension; when
the walk meets no such file the branch never runs, so the catalog file
is neither created nor touched.
-/

/-- The walk loop leaves the catalog untouched when no walked file
matches the extension. -/
lemma get_metadata_go_no_match (extension : PyStr) :
    ∀ (walk : List FsEntry) (rows : List (PyStr × PyStr × PyStr))
      (cat : Option PyStr),
      (∀ e ∈ walk, extension.isSuffixOf e.base = false) →
      get_metadata_go extension walk rows cat = cat := by
  intro walk
  induction walk with
  | nil =>
      intro rows cat _
      rfl
  | cons e es ih =>
      intro rows cat h
      have he := h e (List.mem_cons_self e es)
      unfold get_metadata_go
      rw [if_neg (by simp [he])]
      exact ih rows cat (fun x hx => h x (List.mem_cons_of_mem e hx))

/-- Claim C10: when the directory walk holds no file with the matching
extension, get_metadata performs no write: the catalog content, existing
or absent, is returned exactly as it was. -/
theorem get_metadata_no_match_no_write (extension : PyStr)
    (walk : List FsEntry) (catalog0 : Option PyStr)
    (h : walk.filter (fun e => extension.isSuffixOf e.base) = []) :
    get_metadata extension walk catalog0 = catalog0 := by
  have h2 : ∀ e ∈ walk, extension.isSuffixOf e.base = false := by
    intro e he
    have hne := List.filter_eq_nil_iff.mp h e he
    rw [Bool.not_eq_true] at hne
    exact hne
  exact get_metadata_go_no_match extension walk [] catalog0 h2

/-- Claim C10 witness: a walk holding only notes.txt leaves a
pre-existing catalog content untouched under the .aprx extension. -/
theorem get_metadata_no_match_no_write_witness :
    get_metadata (pystr ".aprx")
      [⟨pystr "root", pystr "notes.txt", pystr "stamp"⟩]
      (some (pystr "OLD")) = some (pystr "OLD") :=
  get_metadata_no_match_no_write (pystr ".aprx")
    [⟨pystr "root", pystr "notes.txt", pystr "stamp"⟩]
    (some (pystr "OLD")) (by decide)

/-!
Claim C5. In clone mode with the single artifact both as the listing
member and as the filename, add_map pops that artifact, reads its serial
base 20250001-0001 and title Survey, and the three loop iterations mint
the suffixes 0002, 0003 and 0004 through new_serial, each producing one
destination copy embedding the fresh serial and the same title.
-/

/-- The loop of add_map does nothing at quantity zero. -/
lemma add_map_loop_zero (d : PyStr) (fn : Option PyStr) (t : PyStr)
    (y : Nat) (s f : PyStr) :
    add_map_loop d fn t y 0 s f = ⟨[], f, [], none⟩ := rfl

/-- One successful iteration of the add_map loop: the destination built
from the current serial is created and the loop continues on the serial
returned by new_serial. -/
lemma add_map_loop_succ_ok {y : Nat} {s f s2 f2 : PyStr} {m2 : List PyStr}
    (d fn t : PyStr) (q : Nat)
    (hns : new_serial (some s) y f = .ok (s2, f2, m2)) :
    add_map_loop d (some fn) t y (q + 1) s f
      = ⟨(d ++ pystr "\\\\" ++ s ++ pystr "_" ++ t ++ pystr ".aprx")
          :: (add_map_loop d (some fn) t y q s2 f2).created,
         (add_map_loop d (some fn) t y q s2 f2).file,
         m2 ++ (add_map_loop d (some fn) t y q s2 f2).messages,
         (add_map_loop d (some fn) t y q s2 f2).error⟩ := by
  conv_lhs => rw [add_map_loop]
  rw [hns]

/-- Claim C5: against a directory whose only .aprx entry is
20250001-0001_Survey.aprx, cloning that artifact with quantity 3 creates
exactly the three destinations embedding serials 20250001-0002, -0003
and -0004 with the title Survey, with no dialog, no failure and the
counter file untouched. -/
theorem add_map_clone_three_serials (directory : PyStr) (listing : List PyStr)
    (template : Option PyStr) (year : Nat) (file0 : PyStr)
    (h : listing.filter (fun i => (pystr ".aprx").isSuffixOf i)
      = [pystr "20250001-0001_Survey.aprx"]) :
    add_map directory listing .clone 3 (some (pystr "20250001-0001_Survey.aprx"))
      template year file0 =
      ⟨[directory ++ pystr "\\\\20250001-0002_Survey.aprx",
        directory ++ pystr "\\\\20250001-0003_Survey.aprx",
        directory ++ pystr "\\\\20250001-0004_Survey.aprx"],
       file0, [], none⟩ := by
  have hns1 : ∀ (y : Nat) (f : PyStr),
      new_serial (some (pystr "20250001-0001")) y f
        = .ok (pystr "20250001-0002", f, []) := fun _ _ => rfl
  have hns2 : ∀ (y : Nat) (f : PyStr),
      new_serial (some (pystr "20250001-0002")) y f
        = .ok (pystr "20250001-0003", f, []) := fun _ _ => rfl
  have hns3 : ∀ (y : Nat) (f : PyStr),
      new_serial (some (pystr "20250001-0003")) y f
        = .ok (pystr "20250001-0004", f, []) := fun _ _ => rfl
  have hns4 : ∀ (y : Nat) (f : PyStr),
      new_serial (some (pystr "20250001-0004")) y f
        = .ok (pystr "20250001-0005", f, []) := fun _ _ => rfl
  have hlast : ([pystr "20250001-0001_Survey.aprx"] : List PyStr).getLast?
      = some (pystr "20250001-0001_Survey.aprx") := rfl
  have hrep : pySplit '_'
      (pyReplace (pystr ".aprx") [] (pystr "20250001-0001_Survey.aprx"))
      = [pystr "20250001-0001", pystr "Survey"] := rfl
  unfold add_map
  rw [h]
  simp only [hlast, hrep, hns1 year file0]
  rw [show (3 : Nat) = 2 + 1 from rfl,
    add_map_loop_succ_ok directory _ _ 2 (hns2 year file0),
    show (2 : Nat) = 1 + 1 from rfl,
    add_map_loop_succ_ok directory _ _ 1 (hns3 year file0),
    show (1 : Nat) = 0 + 1 from rfl,
    add_map_loop_succ_ok directory _ _ 0 (hns4 year file0),
    add_map_loop_zero]
  simp [List.append_assoc]
  exact ⟨rfl, rfl, rfl⟩

/-- Claim C5 witness: the concrete listing holding only the single
artifact produces the three expected destinations. -/
theorem add_map_clone_three_serials_witness :
    add_map (pystr "C:") [pystr "20250001-0001_Survey.aprx"] .clone 3
      (some (pystr "20250001-0001_Survey.aprx")) none 2025 (pystr "100") =
      ⟨[pystr "C:" ++ pystr "\\\\20250001-0002_Survey.aprx",
        pystr "C:" ++ pystr "\\\\20250001-0003_Survey.aprx",
        pystr "C:" ++ pystr "\\\\20250001-0004_Survey.aprx"],
       pystr "100", [], none⟩ :=
  add_map_clone_three_serials (pystr "C:") [pystr "20250001-0001_Survey.aprx"]
    none 2025 (pystr "100") (by rfl)

/-!
Claim C8. Lemmas about the left-join model, then the claim: each of the
three merges of create_index is a left join keyed on the ID with the
attribute table on the left, every attribute row with a matching ID
carries the metadata of that ID in the joined output, and every joined
row carries a key present in the attribute table, so metadata rows
without a matching attribute row are absent.
-/

/-- The left-join model on an empty left table. -/
lemma pdMergeLeft_nil {α β : Type} (right : List (Nat × β)) :
    pdMergeLeft ([] : List (Nat × α)) right = [] := rfl

/-- The left-join model on a cons cell of the left table. -/
lemma pdMergeLeft_cons {α β : Type} (la : Nat × α) (left : List (Nat × α))
    (right : List (Nat × β)) :
    pdMergeLeft (la :: left) right
      = (if (right.filter (fun r => r.1 = la.1)).isEmpty then [(la.1, la.2, none)]
         else (right.filter (fun r => r.1 = la.1)).map
           (fun r => (la.1, la.2, some r.2)))
        ++ pdMergeLeft left right := rfl

/-- A list with a member is not empty. -/
lemma isEmpty_false_of_mem {α : Type} {l : List α} {x : α} (hx : x ∈ l) :
    l.isEmpty = false := by
  cases l with
  | nil => cases hx
  | cons y ys => rfl

/-- Every left row whose key has a match on the right appears in the
joined output paired with that matching right row. -/
lemma pdMergeLeft_mem_of_match {α β : Type} {attr : List (Nat × α)}
    {info : List (Nat × β)} {k : Nat} {a : α} {b : β}
    (ha : (k, a) ∈ attr) (hb : (k, b) ∈ info) :
    (k, a, some b) ∈ pdMergeLeft attr info := by
  induction attr with
  | nil => cases ha
  | cons la left ih =>
      rw [pdMergeLeft_cons, List.mem_append]
      rcases List.mem_cons.mp ha with hh | ht
      · left
        rw [← hh]
        have hf : (k, b) ∈ info.filter (fun r => r.1 = (k, a).1) :=
          List.mem_filter.mpr ⟨hb, by simp⟩
        rw [if_neg (by rw [isEmpty_false_of_mem hf]; exact Bool.false_ne_true)]
        exact List.mem_map.mpr ⟨(k, b), hf, rfl⟩
      · right
        exact ih ht

/-- Every joined row carries a key present in the left table. -/
lemma pdMergeLeft_key_mem {α β : Type} {attr : List (Nat × α)}
    {info : List (Nat × β)} :
    ∀ row ∈ pdMergeLeft attr info, ∃ a, (row.1, a) ∈ attr := by
  induction attr with
  | nil =>
      intro row hrow
      rw [pdMergeLeft_nil] at hrow
      cases hrow
  | cons la left ih =>
      intro row hrow
      rw [pdMergeLeft_cons, List.mem_append] at hrow
      rcases hrow with hh | ht
      · by_cases he : (info.filter (fun r => r.1 = la.1)).isEmpty = true
        · rw [if_pos he] at hh
          have hr : row = (la.1, la.2, none) := by simpa using hh
          refine ⟨la.2, ?_⟩
          rw [hr]
          exact List.mem_cons.mpr (Or.inl (Prod.mk.eta).symm)
        · rw [if_neg he] at hh
          obtain ⟨r, _hr, heq⟩ := List.mem_map.mp hh
          refine ⟨la.2, ?_⟩
          rw [← heq]
          exact List.mem_cons.mpr (Or.inl (Prod.mk.eta).symm)
      · obtain ⟨a, hmem⟩ := ih row ht
        exact ⟨a, List.mem_cons_of_mem la hmem⟩

/-- Claim C8: the three merges of create_index are left joins keyed on
the sequential ID with the attribute tables (layers, layouts, maps) as
the left side; every attribute row with a matching ID carries the file
metadata of that ID in the joined output, and every joined row has its
key in the attribute table, so metadata rows with no matching attribute
row are absent from the joined output. -/
theorem create_index_left_join_spec (projects : List ProjModel)
    (info : List (Nat × MetaRow)) :
    create_index_merges projects info =
      (pdMergeLeft (attrLayers projects) info,
        pdMergeLeft (attrLayouts projects) info,
        pdMergeLeft (attrMaps projects) info)
    ∧ (∀ attr : List (Nat × PyStr), ∀ k a b, (k, a) ∈ attr → (k, b) ∈ info →
        (k, a, some b) ∈ pdMergeLeft attr info)
    ∧ (∀ attr : List (Nat × PyStr), ∀ row ∈ pdMergeLeft attr info,
        ∃ a, (row.1, a) ∈ attr) :=
  ⟨rfl,
   fun _attr _k _a _b ha hb => pdMergeLeft_mem_of_match ha hb,
   fun _attr => pdMergeLeft_key_mem⟩

/-- A concrete metadata row for the claim C8 witness. -/
def mrow0 : MetaRow := ⟨pystr "f1.aprx", pystr "p1", pystr "t1"⟩

/-- Claim C8 witness: with one project whose only map is M with layer L
and one metadata row under ID 1, the layer attribute row (1, L) carries
the metadata row in the join, and the maps join only carries key 1. -/
theorem create_index_left_join_spec_witness :
    (1, pystr "L", some mrow0)
      ∈ pdMergeLeft [(1, pystr "L")] [(1, mrow0)] ∧
    (1, pystr "M", some mrow0)
      ∈ pdMergeLeft [(1, pystr "M")] [(1, mrow0)] :=
  ⟨(create_index_left_join_spec [⟨[⟨pystr "M", [pystr "L"]⟩], []⟩]
      [(1, mrow0)]).2.1 [(1, pystr "L")] 1 (pystr "L") mrow0
      (List.mem_cons_self _ _) (List.mem_cons_self _ _),
   (create_index_left_join_spec [⟨[⟨pystr "M", [pystr "L"]⟩], []⟩]
      [(1, mrow0)]).2.1 [(1, pystr "M")] 1 (pystr "M") mrow0
      (List.mem_cons_self _ _) (List.mem_cons_self _ _)⟩

/-!
Claim C4. The claim characterises the inputs the serial validator
flags: a length other than 8 or 13; a letter, whitespace or punctuation
character in either numeric segment; or, at length 13, a character other
than the dash at index 8 or more than one dash. The claim-side condition
is stated from that wording and proved equivalent to the model of the
validator for every string.
-/

/-- The numeric segments of a serial string as the claim reads them: the
whole string at length 8, the dash-split parts at length 13, nothing
otherwise. -/
def claimSegments (s : PyStr) : List PyStr :=
  if s.length = 8 then [s]
  else if s.length = 13 then pySplit '-' s
  else []

/-- The invalidity condition exactly as claim C4 words it. -/
def claimInvalid (s : PyStr) : Prop :=
  (s.length ≠ 8 ∧ s.length ≠ 13)
  ∨ (∃ seg ∈ claimSegments s, ∃ c ∈ seg, badChar c = true)
  ∨ (s.length = 13 ∧ (s[8]? ≠ some '-' ∨ 1 < s.count '-'))

/-- Claim C4: the validator shows at least one dialog for a string
exactly when the string has a length other than 8 or 13, or has a
letter, whitespace or punctuation character in a numeric segment, or has
length 13 with the character at index 8 not a dash or more than one
dash. -/
theorem validate_serial_flags_iff (s : PyStr) :
    validate_serial_msgs s ≠ [] ↔ claimInvalid s := by
  by_cases h8 : s.length = 8
  · have h13 : ¬ s.length = 13 := by omega
    have hL : validate_serial_msgs s = check_numeric_msgs s := by
      unfold validate_serial_msgs
      rw [if_pos h8]
    have hSeg : claimSegments s = [s] := by
      unfold claimSegments
      rw [if_pos h8]
    rw [hL, check_numeric_msgs_ne_nil_iff]
    unfold claimInvalid
    rw [hSeg]
    constructor
    · rintro ⟨c, hc, hb⟩
      exact Or.inr (Or.inl ⟨s, List.mem_singleton_self s, c, hc, hb⟩)
    · rintro (⟨ha, _⟩ | ⟨seg, hseg, c, hc, hb⟩ | ⟨hl, _⟩)
      · exact absurd h8 ha
      · rw [List.mem_singleton] at hseg
        exact ⟨c, hseg ▸ hc, hb⟩
      · exact absurd hl h13
  · by_cases h13 : s.length = 13
    · by_cases hw : s.count '-' = 1 ∧ s[8]? = some '-'
      · obtain ⟨hcnt, hget⟩ := hw
        obtain ⟨a, b, hdec, hlena⟩ :
            ∃ a b : PyStr, s = a ++ '-' :: b ∧ a.length = 8 := by
          refine ⟨s.take 8, s.drop 9, eq_take_cons_drop 8 s '-' hget, ?_⟩
          rw [List.length_take]
          omega
        subst hdec
        have hzero : a.count '-' = 0 ∧ b.count '-' = 0 := by
          rw [List.count_append, List.count_cons_self] at hcnt
          omega
        have hna : '-' ∉ a := List.count_eq_zero.mp hzero.1
        have hnb : '-' ∉ b := List.count_eq_zero.mp hzero.2
        have hL : validate_serial_msgs (a ++ '-' :: b)
            = check_numeric_msgs a ++ check_numeric_msgs b := by
          unfold validate_serial_msgs
          rw [if_neg h8, if_pos ⟨h13, hcnt, hget⟩, pySplit_pair hna hnb]
          rfl
        have hSeg : claimSegments (a ++ '-' :: b) = [a, b] := by
          unfold claimSegments
          rw [if_neg h8, if_pos h13]
          exact pySplit_pair hna hnb
        rw [hL]
        unfold claimInvalid
        rw [hSeg]
        rw [ne_eq, List.append_eq_nil, not_and_or, ← ne_eq, ← ne_eq,
          check_numeric_msgs_ne_nil_iff, check_numeric_msgs_ne_nil_iff]
        constructor
        · rintro (⟨c, hc, hb⟩ | ⟨c, hc, hb⟩)
          · exact Or.inr (Or.inl ⟨a, by simp, c, hc, hb⟩)
          · exact Or.inr (Or.inl ⟨b, by simp, c, hc, hb⟩)
        · rintro (⟨_, hne13⟩ | ⟨seg, hseg, c, hc, hb⟩ | ⟨_, hbad⟩)
          · exact absurd h13 hne13
          · rcases List.mem_cons.mp hseg with hsa | hsb
            · exact Or.inl ⟨c, hsa ▸ hc, hb⟩
            · rw [List.mem_singleton] at hsb
              exact Or.inr ⟨c, hsb ▸ hc, hb⟩
          · rcases hbad with hg | hcc
            · exact absurd hget hg
            · rw [hcnt] at hcc
              exact absurd hcc (lt_irrefl 1)
      · have hL : validate_serial_msgs s = [msgFormat] := by
          unfold validate_serial_msgs
          rw [if_neg h8, if_neg (fun hh => hw ⟨hh.2.1, hh.2.2⟩)]
        rw [hL]
        constructor
        · intro _
          unfold claimInvalid
          refine Or.inr (Or.inr ⟨h13, ?_⟩)
          by_cases hg : s[8]? = some '-'
          · right
            have hmem : '-' ∈ s := List.getElem?_mem hg
            have hpos : 0 < s.count '-' := List.count_pos_iff.mpr hmem
            have hne1 : s.count '-' ≠ 1 := fun hc => hw ⟨hc, hg⟩
            omega
          · exact Or.inl hg
        · intro _
          exact List.cons_ne_nil _ _
    · have hL : validate_serial_msgs s = [msgFormat] := by
        unfold validate_serial_msgs
        rw [if_neg h8, if_neg (fun hh => h13 hh.1)]
      rw [hL]
      constructor
      · intro _
        exact Or.inl ⟨h8, h13⟩
      · intro _
        exact List.cons_ne_nil _ _

end Pyxidust









